import Mathlib

/-!
Shallow embedding of the CathoLink attendance scanner core
(src/unnamed/part_000, an admin QR-scanner screen) and of the ratings
statistics aggregation (src/src/pages/AdminRatings.tsx).

The scanner flow is: decode QR payload, fetch profile, classify the scan
against today's existing attendance records, insert a record when accepted,
then dispatch email / push / SMS notifications.  We embed the classifier
(`getAttendanceStatus`), the duplicate-session reconciliation inside
`handleScan`, the birthday check (`checkIfBirthday`), and the notification
dispatch phase with its exception-flow structure.  Machine time is passed
in explicitly (hours, minutes of the wall clock); persistence and delivery
collaborators are modelled by their observable outcomes.
-/

/-- The attendance status enumeration of the source
(`'present' | 'late' | 'absent' | 'half_day'`). -/
inductive AttendanceStatus where
  | present
  | late
  | absent
  | half_day
deriving DecidableEq, Repr

/-- `getAttendanceStatus` from src/unnamed/part_000 lines 50-78.  The source
reads the wall clock and computes `currentTime = hours * 60 + minutes`; we
take `currentTime` (minutes since midnight) as the argument and keep the
exact cascade of range tests. -/
def getAttendanceStatus (currentTime : Nat) : AttendanceStatus :=
  -- 6:00 AM - 7:59 AM (360-479 minutes): Present (morning)
  if 360 ≤ currentTime ∧ currentTime < 480 then .present
  -- 8:00 AM - 11:59 AM (480-719 minutes): Late (morning late)
  else if 480 ≤ currentTime ∧ currentTime < 720 then .late
  -- 12:00 PM - 1:15 PM (720-795 minutes): Present (afternoon)
  else if 720 ≤ currentTime ∧ currentTime ≤ 795 then .present
  -- 4:30 PM and later, written `currentTime >= 1050` in the source
  else if 1050 ≤ currentTime then .absent
  -- Default for other times
  else .present

/-- An existing same-day attendance row as the session logic sees it: the
duplicate checks in `handleScan` read only `new Date(a.scanned_at).getHours()`,
so the embedding keeps just that hour. -/
structure AttendanceRecord where
  hour : Nat
deriving DecidableEq, Repr

/-- `morningScans` filter from `handleScan` (hour in [6,12)). -/
def morningScans (existingAttendance : List AttendanceRecord) : List AttendanceRecord :=
  existingAttendance.filter (fun a => decide (6 ≤ a.hour ∧ a.hour < 12))

/-- `afternoonScans` filter from `handleScan` (hour in [12,16)). -/
def afternoonScans (existingAttendance : List AttendanceRecord) : List AttendanceRecord :=
  existingAttendance.filter (fun a => decide (12 ≤ a.hour ∧ a.hour < 16))

/-- Outcome of the classification / duplicate-reconciliation part of
`handleScan` (lines 158-226): either of the two early-return rejection
branches, or acceptance with the status that gets inserted. -/
inductive ScanDecision where
  /-- the branch commented `Both sessions attended - already recorded` -/
  | rejectedBothSessions
  /-- the branch commented `Already scanned this session` -/
  | rejectedSameSession
  | accepted (finalStatus : AttendanceStatus)
deriving DecidableEq, Repr

/-- The decision logic of `handleScan`, src/unnamed/part_000 lines 158-226.
`hours` and `minutes` are the wall-clock components the source reads from
`new Date()`; `existingAttendance` is the list of today's records for the
student.  `status` and `finalStatus` are computed exactly as in the source
(`finalStatus` starts as `status` and is never reassigned); the two `if`
conditions mirror lines 179-180 and 195-196, with `currentlyMorning` =
`hours >= 6 && hours < 12` and `currentlyAfternoon` = `hours >= 12 && hours < 16`
inlined. -/
def handleScanDecision (hours minutes : Nat)
    (existingAttendance : List AttendanceRecord) : ScanDecision :=
  let finalStatus := getAttendanceStatus (hours * 60 + minutes)
  if existingAttendance.length > 0 then
    if ((6 ≤ hours ∧ hours < 12) ∧ (afternoonScans existingAttendance).length > 0) ∨
       ((12 ≤ hours ∧ hours < 16) ∧ (morningScans existingAttendance).length > 0) then
      .rejectedBothSessions
    else if ((6 ≤ hours ∧ hours < 12) ∧ (morningScans existingAttendance).length > 0) ∨
            ((12 ≤ hours ∧ hours < 16) ∧ (afternoonScans existingAttendance).length > 0) then
      .rejectedSameSession
    else
      .accepted finalStatus
  else
    .accepted finalStatus

/-- Observable outcome of one `supabase.functions.invoke` call on a delivery
collaborator: it resolves with no error, resolves with an `error` field in
its result (the source logs it with console.error and carries on), or the
awaited call itself throws (the promise rejects). -/
inductive InvokeOutcome where
  | ok
  | errResult
  | thrown
deriving DecidableEq, Repr

/-- The inputs of the notification phase of `handleScan`: which profile
fields are present (`profile.email`, `profile.parent_number`) and how each
delivery collaborator behaves when invoked. -/
structure NotifyEnv where
  hasEmail : Bool
  hasParentNumber : Bool
  emailOutcome : InvokeOutcome
  pushOutcome : InvokeOutcome
  smsOutcome : InvokeOutcome
deriving DecidableEq, Repr

/-- What the notification phase did: which collaborators were invoked, and
whether an exception escaped the phase to the outer `catch` of `handleScan`
(the one that shows the `Scan Failed` toast). -/
structure NotifyTrace where
  emailInvoked : Bool
  pushInvoked : Bool
  smsInvoked : Bool
  propagated : Bool
deriving DecidableEq, Repr

/-- The push guard of src/unnamed/part_000 line 266:
`finalStatus === 'late' || finalStatus === 'absent' || finalStatus === 'half_day'`. -/
def pushCondition (finalStatus : AttendanceStatus) : Bool :=
  finalStatus == .late || finalStatus == .absent || finalStatus == .half_day

/-- The notification phase of `handleScan` (src/unnamed/part_000 lines
244-336), run after a successful insert.  Control-flow structure of the
source, the material point of the embedding:
* the email invoke (lines 245-263) is guarded by `if (profile.email)` and is
  awaited with NO surrounding try/catch of its own — an `error` field in its
  result is only logged, but a thrown error escapes to the outer scan `catch`
  before the push and SMS blocks run;
* the push invoke (lines 266-303) is guarded by the late/absent/half_day
  condition and sits inside `try { ... } catch (notifError)`, so a thrown
  error is caught and logged locally;
* the SMS invoke (lines 305-336) is guarded by `if (profile.parent_number)`
  and sits inside `try { ... } catch (smsError)`, likewise contained. -/
def notifyPhase (finalStatus : AttendanceStatus) (env : NotifyEnv) : NotifyTrace :=
  if env.hasEmail && env.emailOutcome == .thrown then
    -- the un-wrapped email call threw: push and SMS are never reached
    { emailInvoked := true, pushInvoked := false, smsInvoked := false, propagated := true }
  else
    { emailInvoked := env.hasEmail
      pushInvoked := pushCondition finalStatus
      smsInvoked := env.hasParentNumber
      propagated := false }

/-- Trace of a scan that never reached the notification code (both rejection
branches `return` before the insert and before any dispatch). -/
def noDispatch : NotifyTrace :=
  { emailInvoked := false, pushInvoked := false, smsInvoked := false, propagated := false }

/-- Overall observable outcome of one `handleScan` pass for a valid payload
and found profile: the decision taken, whether an attendance row was
inserted (and with which status), and the notification trace. -/
structure ScanOutcome where
  decision : ScanDecision
  inserted : Bool
  insertedStatus : Option AttendanceStatus
  trace : NotifyTrace
deriving DecidableEq, Repr

/-- `handleScan` (src/unnamed/part_000 lines 114-361) for a scan that parses
and whose profile is found, assuming the insert succeeds: the two rejection
branches return before the insert with no dispatch; the accepted path
inserts the row with `status: finalStatus` (line 222) and then runs the
notification phase.  Nothing after the insert ever deletes the row, so
`inserted` stays true on the accepted path whatever the collaborators do. -/
def handleScan (hours minutes : Nat) (existingAttendance : List AttendanceRecord)
    (env : NotifyEnv) : ScanOutcome :=
  match handleScanDecision hours minutes existingAttendance with
  | .rejectedBothSessions =>
      { decision := .rejectedBothSessions, inserted := false
        insertedStatus := none, trace := noDispatch }
  | .rejectedSameSession =>
      { decision := .rejectedSameSession, inserted := false
        insertedStatus := none, trace := noDispatch }
  | .accepted s =>
      { decision := .accepted s, inserted := true
        insertedStatus := some s, trace := notifyPhase s env }

/-- A calendar date as the birthday logic reads it: `checkIfBirthday`
compares only `getMonth()` and `getDate()`; the year is carried but never
compared. -/
structure SimpleDate where
  year : Nat
  month : Nat
  day : Nat
deriving DecidableEq, Repr

/-- `checkIfBirthday` from src/unnamed/part_000 lines 42-48.  The source
takes the stored birthday string (`if (!birthday) return false` for a
missing/empty value, modelled as `none`) and compares month and
day-of-month of today's date with the parsed birthday. -/
def checkIfBirthday (today : SimpleDate) (birthday : Option SimpleDate) : Bool :=
  match birthday with
  | none => false
  | some birthDate => today.month == birthDate.month && today.day == birthDate.day

/-- The eight rating questions of src/src/pages/AdminRatings.tsx:
`questionKeys = Object.keys(questionLabels)`. -/
inductive QKey where
  | ease_of_use
  | interface_design
  | qr_code_functionality
  | attendance_tracking
  | response_speed
  | reliability
  | overall_satisfaction
  | would_recommend
deriving DecidableEq, Repr

/-- The key list in the order of `questionLabels`. -/
def questionKeys : List QKey :=
  [.ease_of_use, .interface_design, .qr_code_functionality, .attendance_tracking,
   .response_speed, .reliability, .overall_satisfaction, .would_recommend]

/-- One `app_ratings` row as the aggregation reads it: the eight question
columns are `number | null` (`Option ℚ` here; the aggregation only keeps a
value when `typeof value === 'number'`).  The row's id / user / text columns
never enter the statistics computation and are omitted. -/
structure Rating where
  ease_of_use : Option ℚ
  interface_design : Option ℚ
  qr_code_functionality : Option ℚ
  attendance_tracking : Option ℚ
  response_speed : Option ℚ
  reliability : Option ℚ
  overall_satisfaction : Option ℚ
  would_recommend : Option ℚ
deriving DecidableEq, Repr

/-- `rating[key]` lookup. -/
def Rating.get (r : Rating) : QKey → Option ℚ
  | .ease_of_use => r.ease_of_use
  | .interface_design => r.interface_design
  | .qr_code_functionality => r.qr_code_functionality
  | .attendance_tracking => r.attendance_tracking
  | .response_speed => r.response_speed
  | .reliability => r.reliability
  | .overall_satisfaction => r.overall_satisfaction
  | .would_recommend => r.would_recommend

/-- The per-question accumulator `{ sum, count, avg }` of the `statistics`
memo (AdminRatings.tsx line 83). -/
structure QStat where
  sum : ℚ
  count : Nat
  avg : ℚ
deriving DecidableEq, Repr

/-- Initialization loop: every key starts at `{ sum: 0, count: 0, avg: 0 }`. -/
def initStats : QKey → QStat :=
  fun _ => { sum := 0, count := 0, avg := 0 }

/-- One iteration of the accumulation loop (lines 89-97): for each key, a
numeric value adds to `sum` and bumps `count`; a null value is skipped. -/
def accumRow (stats : QKey → QStat) (rating : Rating) : QKey → QStat :=
  fun key =>
    match rating.get key with
    | some value =>
        { stats key with sum := (stats key).sum + value, count := (stats key).count + 1 }
    | none => stats key

/-- The accumulation over all rows (`ratings.forEach`). -/
def statsAfterRows (ratings : List Rating) : QKey → QStat :=
  ratings.foldl accumRow initStats

/-- The averaging pass (lines 99-103): `avg = sum / count` when `count > 0`,
otherwise `avg` keeps its initial 0. -/
def withAvg (stats : QKey → QStat) : QKey → QStat :=
  fun key =>
    if (stats key).count > 0 then
      { stats key with avg := (stats key).sum / ((stats key).count : ℚ) }
    else
      stats key

/-- The value of the `statistics` memo for a non-empty ratings list. -/
structure Statistics where
  byQuestion : QKey → QStat
  overallAvg : ℚ
  totalResponses : Nat

/-- The `statistics` memo of AdminRatings.tsx lines 80-118: `null` for an
empty list; otherwise the per-question stats, the overall average
`totalSum / totalCount` over all keys (0 when `totalCount` is 0), and the
row count. -/
def statistics (ratings : List Rating) : Option Statistics :=
  if ratings.length = 0 then none
  else
    let stats := withAvg (statsAfterRows ratings)
    let totalSum := (questionKeys.map (fun key => (stats key).sum)).sum
    let totalCount := (questionKeys.map (fun key => (stats key).count)).sum
    some { byQuestion := stats
           overallAvg := if totalCount > 0 then totalSum / (totalCount : ℚ) else 0
           totalResponses := ratings.length }

/-- The non-null numeric values a question received, in row order — the
claim's description of what a question's average ranges over. -/
def qvals (ratings : List Rating) (key : QKey) : List ℚ :=
  ratings.filterMap (fun r => r.get key)

/-- A sample ratings row (some questions answered, some left null) used to
exercise the aggregation on concrete data. -/
def sampleRating : Rating :=
  { ease_of_use := some 5, interface_design := none, qr_code_functionality := some 3
    attendance_tracking := none, response_speed := some 4, reliability := none
    overall_satisfaction := some 5, would_recommend := none }

/-! ## Helper lemmas -/

lemma morningScans_length_pos {existing : List AttendanceRecord} {r : AttendanceRecord}
    (hr : r ∈ existing) (h6 : 6 ≤ r.hour) (h12 : r.hour < 12) :
    (morningScans existing).length > 0 := by
  apply List.length_pos.mpr
  apply List.ne_nil_of_mem (a := r)
  exact List.mem_filter.mpr ⟨hr, by simp [h6, h12]⟩

lemma afternoonScans_length_pos {existing : List AttendanceRecord} {r : AttendanceRecord}
    (hr : r ∈ existing) (h12 : 12 ≤ r.hour) (h16 : r.hour < 16) :
    (afternoonScans existing).length > 0 := by
  apply List.length_pos.mpr
  apply List.ne_nil_of_mem (a := r)
  exact List.mem_filter.mpr ⟨hr, by simp [h12, h16]⟩

lemma handleScanDecision_accepted_eq {hours minutes : Nat}
    {existing : List AttendanceRecord} {s : AttendanceStatus}
    (h : handleScanDecision hours minutes existing = .accepted s) :
    s = getAttendanceStatus (hours * 60 + minutes) := by
  unfold handleScanDecision at h
  split at h
  · split at h
    · exact absurd h (by simp)
    · split at h
      · exact absurd h (by simp)
      · exact (ScanDecision.accepted.injEq .. ▸ h).symm
  · exact (ScanDecision.accepted.injEq .. ▸ h).symm

lemma getAttendanceStatus_ne_half_day (t : Nat) :
    getAttendanceStatus t ≠ .half_day := by
  unfold getAttendanceStatus
  split_ifs <;> simp

lemma email_cond_false {env : NotifyEnv}
    (h : ¬(env.hasEmail = true ∧ env.emailOutcome = .thrown)) :
    (env.hasEmail && env.emailOutcome == .thrown) = false := by
  cases henv : env.hasEmail with
  | false => rfl
  | true =>
    cases ho : env.emailOutcome with
    | ok => rfl
    | errResult => rfl
    | thrown => exact absurd ⟨henv, ho⟩ h

/-- Scanning during one session while a record of the other session exists
hits the first rejection branch. -/
lemma decision_both_of_cross (hours minutes : Nat) (existing : List AttendanceRecord)
    (hcross : (6 ≤ hours ∧ hours < 12 ∧ ∃ r ∈ existing, 12 ≤ r.hour ∧ r.hour < 16) ∨
              (12 ≤ hours ∧ hours < 16 ∧ ∃ r ∈ existing, 6 ≤ r.hour ∧ r.hour < 12)) :
    handleScanDecision hours minutes existing = .rejectedBothSessions := by
  have hlen : existing.length > 0 := by
    rcases hcross with ⟨_, _, r, hr, _⟩ | ⟨_, _, r, hr, _⟩ <;>
      exact List.length_pos.mpr (List.ne_nil_of_mem hr)
  unfold handleScanDecision
  rcases hcross with ⟨h6, h12, r, hr, ha1, ha2⟩ | ⟨h12, h16, r, hr, hm1, hm2⟩
  · rw [if_pos hlen,
      if_pos (Or.inl ⟨⟨h6, h12⟩, afternoonScans_length_pos hr ha1 ha2⟩)]
  · rw [if_pos hlen,
      if_pos (Or.inr ⟨⟨h12, h16⟩, morningScans_length_pos hr hm1 hm2⟩)]

/-- Scanning during a session in which a record already exists never reaches
the accepted branch: one of the two rejection branches fires. -/
lemma decision_rejects_of_same (hours minutes : Nat) (existing : List AttendanceRecord)
    (hsame : (6 ≤ hours ∧ hours < 12 ∧ ∃ r ∈ existing, 6 ≤ r.hour ∧ r.hour < 12) ∨
             (12 ≤ hours ∧ hours < 16 ∧ ∃ r ∈ existing, 12 ≤ r.hour ∧ r.hour < 16)) :
    handleScanDecision hours minutes existing = .rejectedBothSessions ∨
    handleScanDecision hours minutes existing = .rejectedSameSession := by
  have hlen : existing.length > 0 := by
    rcases hsame with ⟨_, _, r, hr, _⟩ | ⟨_, _, r, hr, _⟩ <;>
      exact List.length_pos.mpr (List.ne_nil_of_mem hr)
  by_cases hboth :
      ((6 ≤ hours ∧ hours < 12) ∧ (afternoonScans existing).length > 0) ∨
      ((12 ≤ hours ∧ hours < 16) ∧ (morningScans existing).length > 0)
  · left
    unfold handleScanDecision
    rw [if_pos hlen, if_pos hboth]
  · right
    unfold handleScanDecision
    rcases hsame with ⟨h6, h12, r, hr, hm1, hm2⟩ | ⟨h12, h16, r, hr, ha1, ha2⟩
    · rw [if_pos hlen, if_neg hboth,
        if_pos (Or.inl ⟨⟨h6, h12⟩, morningScans_length_pos hr hm1 hm2⟩)]
    · rw [if_pos hlen, if_neg hboth,
        if_pos (Or.inr ⟨⟨h12, h16⟩, afternoonScans_length_pos hr ha1 ha2⟩)]

/-- A scan whose hour lies outside both session windows bypasses every
duplicate check and is accepted, whatever records exist. -/
lemma decision_accepted_of_out_of_session (hours minutes : Nat)
    (existing : List AttendanceRecord) (hhour : ¬(6 ≤ hours ∧ hours < 16)) :
    handleScanDecision hours minutes existing =
      .accepted (getAttendanceStatus (hours * 60 + minutes)) := by
  unfold handleScanDecision
  by_cases hlen : existing.length > 0
  · rw [if_pos hlen,
      if_neg (by rintro (⟨⟨h1, h2⟩, -⟩ | ⟨⟨h1, h2⟩, -⟩) <;> exact hhour ⟨by omega, by omega⟩),
      if_neg (by rintro (⟨⟨h1, h2⟩, -⟩ | ⟨⟨h1, h2⟩, -⟩) <;> exact hhour ⟨by omega, by omega⟩)]
  · rw [if_neg hlen]

/-! ## Claim theorems -/

/-- Claim C1: for every scan time `t` in minutes since midnight, the base
status returned by `getAttendanceStatus` is present on [360,480), late on
[480,720), present on [720,795], absent from 1050 on, and present for every
other time (before 360 and strictly between 795 and 1050). -/
theorem claim1_base_status_table (t : Nat) :
    (360 ≤ t ∧ t < 480 → getAttendanceStatus t = .present) ∧
    (480 ≤ t ∧ t < 720 → getAttendanceStatus t = .late) ∧
    (720 ≤ t ∧ t ≤ 795 → getAttendanceStatus t = .present) ∧
    (1050 ≤ t → getAttendanceStatus t = .absent) ∧
    (t < 360 ∨ (795 < t ∧ t < 1050) → getAttendanceStatus t = .present) := by
  refine ⟨fun h => ?_, fun h => ?_, fun h => ?_, fun h => ?_, fun h => ?_⟩ <;>
    · unfold getAttendanceStatus
      split_ifs <;> first | rfl | omega

/-- Witness for C1 at one concrete time in each range. -/
theorem claim1_base_status_table_witness :
    getAttendanceStatus 420 = .present ∧ getAttendanceStatus 540 = .late ∧
    getAttendanceStatus 795 = .present ∧ getAttendanceStatus 1100 = .absent ∧
    getAttendanceStatus 900 = .present ∧ getAttendanceStatus 100 = .present :=
  ⟨(claim1_base_status_table 420).1 (by omega),
   (claim1_base_status_table 540).2.1 (by omega),
   (claim1_base_status_table 795).2.2.1 (by omega),
   (claim1_base_status_table 1100).2.2.2.1 (by omega),
   (claim1_base_status_table 900).2.2.2.2 (Or.inr (by omega)),
   (claim1_base_status_table 100).2.2.2.2 (Or.inl (by omega))⟩

/-- Counterexample to claim C2 as stated: at 13:00, with exactly one
existing record whose hour is 7 (a 07:30 morning scan) and no afternoon
record, the scan is NOT accepted-and-inserted — `handleScan` takes the
`Both sessions attended` rejection branch and inserts nothing. -/
theorem claim2_counterexample :
    (handleScan 13 0 [⟨7⟩] ⟨true, true, .ok, .ok, .ok⟩).inserted = false ∧
    (handleScan 13 0 [⟨7⟩] ⟨true, true, .ok, .ok, .ok⟩).decision =
      .rejectedBothSessions := by
  decide

/-- Claim C2 amended: for a scan at 13:00 by a student whose single
existing record today has hour in [6,12), the scan is rejected through the
both-sessions branch (the code treats a record in the other session as the
day being complete) and no new attendance record is inserted. -/
theorem claim2_afternoon_scan_after_morning_rejected
    (rec : AttendanceRecord) (env : NotifyEnv)
    (hm : 6 ≤ rec.hour ∧ rec.hour < 12) :
    handleScan 13 0 [rec] env =
      { decision := .rejectedBothSessions, inserted := false
        insertedStatus := none, trace := noDispatch } := by
  have hdec : handleScanDecision 13 0 [rec] = .rejectedBothSessions :=
    decision_both_of_cross 13 0 [rec]
      (Or.inr ⟨by omega, by omega, rec, List.mem_singleton.mpr rfl, hm.1, hm.2⟩)
  simp [handleScan, hdec]

/-- Witness for the amended C2 at a concrete record and environment. -/
theorem claim2_afternoon_scan_after_morning_rejected_witness :
    (6 ≤ (⟨7⟩ : AttendanceRecord).hour ∧ (⟨7⟩ : AttendanceRecord).hour < 12) ∧
    handleScan 13 0 [⟨7⟩] ⟨true, true, .ok, .ok, .ok⟩ =
      { decision := .rejectedBothSessions, inserted := false
        insertedStatus := none, trace := noDispatch } :=
  ⟨by decide,
   claim2_afternoon_scan_after_morning_rejected ⟨7⟩ ⟨true, true, .ok, .ok, .ok⟩
     (by decide)⟩

/-- Claim C3: a scan whose hour is in the morning window [6,12) while some
existing same-day record has hour in [12,16), or whose hour is in [12,16)
while some existing record has hour in [6,12), is rejected through the
both-sessions branch and inserts no record. -/
theorem claim3_cross_session_rejected (hours minutes : Nat)
    (existing : List AttendanceRecord) (env : NotifyEnv)
    (hcross : (6 ≤ hours ∧ hours < 12 ∧ ∃ r ∈ existing, 12 ≤ r.hour ∧ r.hour < 16) ∨
              (12 ≤ hours ∧ hours < 16 ∧ ∃ r ∈ existing, 6 ≤ r.hour ∧ r.hour < 12)) :
    (handleScan hours minutes existing env).decision = .rejectedBothSessions ∧
    (handleScan hours minutes existing env).inserted = false := by
  have hdec := decision_both_of_cross hours minutes existing hcross
  simp [handleScan, hdec]

/-- Witness for C3: scan at 09:15 with an existing 13-hour record. -/
theorem claim3_cross_session_rejected_witness :
    ((6 ≤ 9 ∧ 9 < 12 ∧ ∃ r ∈ [(⟨13⟩ : AttendanceRecord)], 12 ≤ r.hour ∧ r.hour < 16) ∨
     (12 ≤ 9 ∧ 9 < 16 ∧ ∃ r ∈ [(⟨13⟩ : AttendanceRecord)], 6 ≤ r.hour ∧ r.hour < 12)) ∧
    ((handleScan 9 15 [⟨13⟩] ⟨true, true, .ok, .ok, .ok⟩).decision =
        .rejectedBothSessions ∧
     (handleScan 9 15 [⟨13⟩] ⟨true, true, .ok, .ok, .ok⟩).inserted = false) :=
  ⟨by decide,
   claim3_cross_session_rejected 9 15 [⟨13⟩] ⟨true, true, .ok, .ok, .ok⟩ (by decide)⟩

/-- Claim C4: a student who already has a record in the current session
(scan hour and record hour in the same session window) is rejected on a
second scan in that session, whatever the minutes (hence whatever the base
time-of-day status), with no insert and no email, push, or SMS dispatch. -/
theorem claim4_same_session_duplicate_rejected (hours minutes : Nat)
    (existing : List AttendanceRecord) (env : NotifyEnv)
    (hsame : (6 ≤ hours ∧ hours < 12 ∧ ∃ r ∈ existing, 6 ≤ r.hour ∧ r.hour < 12) ∨
             (12 ≤ hours ∧ hours < 16 ∧ ∃ r ∈ existing, 12 ≤ r.hour ∧ r.hour < 16)) :
    ((handleScan hours minutes existing env).decision = .rejectedBothSessions ∨
     (handleScan hours minutes existing env).decision = .rejectedSameSession) ∧
    (handleScan hours minutes existing env).inserted = false ∧
    (handleScan hours minutes existing env).trace = noDispatch := by
  rcases decision_rejects_of_same hours minutes existing hsame with hdec | hdec <;>
    simp [handleScan, hdec]

/-- Witness for C4: second scan at 09:00 after a 07:30 morning record. -/
theorem claim4_same_session_duplicate_rejected_witness :
    ((6 ≤ 9 ∧ 9 < 12 ∧ ∃ r ∈ [(⟨7⟩ : AttendanceRecord)], 6 ≤ r.hour ∧ r.hour < 12) ∨
     (12 ≤ 9 ∧ 9 < 16 ∧ ∃ r ∈ [(⟨7⟩ : AttendanceRecord)], 12 ≤ r.hour ∧ r.hour < 16)) ∧
    (((handleScan 9 0 [⟨7⟩] ⟨true, true, .ok, .ok, .ok⟩).decision =
        .rejectedBothSessions ∨
      (handleScan 9 0 [⟨7⟩] ⟨true, true, .ok, .ok, .ok⟩).decision =
        .rejectedSameSession) ∧
     (handleScan 9 0 [⟨7⟩] ⟨true, true, .ok, .ok, .ok⟩).inserted = false ∧
     (handleScan 9 0 [⟨7⟩] ⟨true, true, .ok, .ok, .ok⟩).trace = noDispatch) :=
  ⟨by decide,
   claim4_same_session_duplicate_rejected 9 0 [⟨7⟩] ⟨true, true, .ok, .ok, .ok⟩
     (by decide)⟩

/-- Counterexample to claim C6 as stated: at 17:00 — a time of day outside
both session windows — a student who already has a morning record (hour 7)
and an afternoon record (hour 13) is nevertheless accepted and a third
record is inserted: the duplicate checks are bypassed. -/
theorem claim6_counterexample :
    (handleScan 17 0 [⟨7⟩, ⟨13⟩] ⟨true, true, .ok, .ok, .ok⟩).inserted = true ∧
    (handleScan 17 0 [⟨7⟩, ⟨13⟩] ⟨true, true, .ok, .ok, .ok⟩).decision =
      .accepted .present := by
  decide

/-- Claim C6 amended: the duplicate / both-sessions detection only covers
scans whose hour lies in a session window.  For scan hours in [6,16) a
student holding both a morning and an afternoon record is rejected before
any insert; for scan hours outside [6,16) both checks are bypassed and the
scan is inserted regardless of the existing records. -/
theorem claim6_detection_limited_to_session_hours (hours minutes : Nat)
    (existing : List AttendanceRecord) (env : NotifyEnv)
    (hm : ∃ r ∈ existing, 6 ≤ r.hour ∧ r.hour < 12)
    (ha : ∃ r ∈ existing, 12 ≤ r.hour ∧ r.hour < 16) :
    (6 ≤ hours ∧ hours < 16 → (handleScan hours minutes existing env).inserted = false) ∧
    (¬(6 ≤ hours ∧ hours < 16) → (handleScan hours minutes existing env).inserted = true) := by
  constructor
  · intro hhour
    have hdec : handleScanDecision hours minutes existing = .rejectedBothSessions := by
      by_cases h12 : hours < 12
      · exact decision_both_of_cross hours minutes existing (Or.inl ⟨hhour.1, h12, ha⟩)
      · exact decision_both_of_cross hours minutes existing (Or.inr ⟨by omega, hhour.2, hm⟩)
    simp [handleScan, hdec]
  · intro hhour
    have hdec := decision_accepted_of_out_of_session hours minutes existing hhour
    simp [handleScan, hdec]

/-- Witness for the amended C6 at hour 13 (rejected) and hour 17 (inserted). -/
theorem claim6_detection_limited_to_session_hours_witness :
    (∃ r ∈ [(⟨7⟩ : AttendanceRecord), ⟨13⟩], 6 ≤ r.hour ∧ r.hour < 12) ∧
    (∃ r ∈ [(⟨7⟩ : AttendanceRecord), ⟨13⟩], 12 ≤ r.hour ∧ r.hour < 16) ∧
    (handleScan 13 0 [⟨7⟩, ⟨13⟩] ⟨true, true, .ok, .ok, .ok⟩).inserted = false ∧
    (handleScan 17 0 [⟨7⟩, ⟨13⟩] ⟨true, true, .ok, .ok, .ok⟩).inserted = true :=
  ⟨by decide, by decide,
   (claim6_detection_limited_to_session_hours 13 0 [⟨7⟩, ⟨13⟩]
     ⟨true, true, .ok, .ok, .ok⟩ (by decide) (by decide)).1 (by omega),
   (claim6_detection_limited_to_session_hours 17 0 [⟨7⟩, ⟨13⟩]
     ⟨true, true, .ok, .ok, .ok⟩ (by decide) (by decide)).2 (by omega)⟩

/-- Counterexample to claim C5 as stated: with a parent phone number on file
and a status (late) that qualifies for push, a thrown error from the email
collaborator is NOT contained — it propagates to the outer scan handler and
the push and SMS dispatches never execute, though the already-inserted
record remains. -/
theorem claim5_counterexample :
    (handleScan 8 30 [] ⟨true, true, .thrown, .ok, .ok⟩).inserted = true ∧
    (handleScan 8 30 [] ⟨true, true, .thrown, .ok, .ok⟩).trace.emailInvoked = true ∧
    (handleScan 8 30 [] ⟨true, true, .thrown, .ok, .ok⟩).trace.pushInvoked = false ∧
    (handleScan 8 30 [] ⟨true, true, .thrown, .ok, .ok⟩).trace.smsInvoked = false ∧
    (handleScan 8 30 [] ⟨true, true, .thrown, .ok, .ok⟩).trace.propagated = true := by
  decide

/-- Claim C5 amended: only the push and SMS dispatches are wrapped in their
own try/catch, so on every accepted scan no thrown push or SMS error ever
propagates, and an email error reported through the result's error channel
is merely logged, leaving push and SMS to run as usual; but the email invoke
itself is not wrapped: exactly when the email collaborator throws does the
error propagate to the outer scan handler, skipping push and SMS — while the
already-inserted attendance record remains in all cases. -/
theorem claim5_notification_isolation (hours minutes : Nat)
    (existing : List AttendanceRecord) (env : NotifyEnv) (s : AttendanceStatus)
    (haccept : handleScanDecision hours minutes existing = .accepted s) :
    (handleScan hours minutes existing env).inserted = true ∧
    ((handleScan hours minutes existing env).trace.propagated = true ↔
      env.hasEmail = true ∧ env.emailOutcome = .thrown) ∧
    (env.hasEmail = true ∧ env.emailOutcome = .thrown →
      (handleScan hours minutes existing env).trace.pushInvoked = false ∧
      (handleScan hours minutes existing env).trace.smsInvoked = false) ∧
    (¬(env.hasEmail = true ∧ env.emailOutcome = .thrown) →
      (handleScan hours minutes existing env).trace.propagated = false ∧
      (handleScan hours minutes existing env).trace.pushInvoked = pushCondition s ∧
      (handleScan hours minutes existing env).trace.smsInvoked = env.hasParentNumber ∧
      (handleScan hours minutes existing env).trace.emailInvoked = env.hasEmail) := by
  have houtcome : handleScan hours minutes existing env =
      { decision := .accepted s, inserted := true
        insertedStatus := some s, trace := notifyPhase s env } := by
    simp [handleScan, haccept]
  rw [houtcome]
  by_cases hthrow : env.hasEmail = true ∧ env.emailOutcome = .thrown
  · have hc : (env.hasEmail && env.emailOutcome == .thrown) = true := by
      simp [hthrow.1, hthrow.2]
    simp [notifyPhase, hc, hthrow]
  · simp [notifyPhase, email_cond_false hthrow, hthrow]

/-- Witness for the amended C5: an accepted 08:30 scan with a throwing SMS
collaborator — the thrown SMS error is contained and everything else runs. -/
theorem claim5_notification_isolation_witness :
    handleScanDecision 8 30 [] = .accepted .late ∧
    ((handleScan 8 30 [] ⟨true, true, .errResult, .thrown, .thrown⟩).inserted = true ∧
     ((handleScan 8 30 [] ⟨true, true, .errResult, .thrown, .thrown⟩).trace.propagated = true ↔
       (true : Bool) = true ∧ InvokeOutcome.errResult = .thrown) ∧
     ((true : Bool) = true ∧ InvokeOutcome.errResult = .thrown →
       (handleScan 8 30 [] ⟨true, true, .errResult, .thrown, .thrown⟩).trace.pushInvoked = false ∧
       (handleScan 8 30 [] ⟨true, true, .errResult, .thrown, .thrown⟩).trace.smsInvoked = false) ∧
     (¬((true : Bool) = true ∧ InvokeOutcome.errResult = .thrown) →
       (handleScan 8 30 [] ⟨true, true, .errResult, .thrown, .thrown⟩).trace.propagated = false ∧
       (handleScan 8 30 [] ⟨true, true, .errResult, .thrown, .thrown⟩).trace.pushInvoked =
         pushCondition .late ∧
       (handleScan 8 30 [] ⟨true, true, .errResult, .thrown, .thrown⟩).trace.smsInvoked = true ∧
       (handleScan 8 30 [] ⟨true, true, .errResult, .thrown, .thrown⟩).trace.emailInvoked = true)) :=
  ⟨by decide,
   claim5_notification_isolation 8 30 [] ⟨true, true, .errResult, .thrown, .thrown⟩
     .late (by decide)⟩

/-- Claim C7: on an accepted scan whose dispatch phase runs to completion
(the email invoke does not throw), a push is dispatched exactly when the
final status is late, absent, or half_day; for status present no push is
sent while the email and SMS dispatches still occur whenever the profile
has an email address and a parent phone number. -/
theorem claim7_push_only_for_alert_statuses (hours minutes : Nat)
    (existing : List AttendanceRecord) (env : NotifyEnv) (s : AttendanceStatus)
    (haccept : handleScanDecision hours minutes existing = .accepted s)
    (hnothrow : ¬(env.hasEmail = true ∧ env.emailOutcome = .thrown)) :
    ((handleScan hours minutes existing env).trace.pushInvoked = true ↔
      (s = .late ∨ s = .absent ∨ s = .half_day)) ∧
    (s = .present →
      (handleScan hours minutes existing env).trace.pushInvoked = false ∧
      (handleScan hours minutes existing env).trace.emailInvoked = env.hasEmail ∧
      (handleScan hours minutes existing env).trace.smsInvoked = env.hasParentNumber) := by
  have houtcome : handleScan hours minutes existing env =
      { decision := .accepted s, inserted := true
        insertedStatus := some s, trace := notifyPhase s env } := by
    simp [handleScan, haccept]
  have hcond : (env.hasEmail && env.emailOutcome == .thrown) = false :=
    email_cond_false hnothrow
  rw [houtcome]
  simp only [notifyPhase, hcond, Bool.false_eq_true, if_false]
  constructor
  · cases s <;> simp [pushCondition]
  · intro hs
    subst hs
    simp [pushCondition]

/-- Witness for C7: an accepted 07:30 scan (status present) with email and
parent number on file — no push, but email and SMS dispatched. -/
theorem claim7_push_only_for_alert_statuses_witness :
    handleScanDecision 7 30 [] = .accepted .present ∧
    ¬((true : Bool) = true ∧ InvokeOutcome.ok = .thrown) ∧
    (((handleScan 7 30 [] ⟨true, true, .ok, .ok, .ok⟩).trace.pushInvoked = true ↔
       (AttendanceStatus.present = .late ∨ AttendanceStatus.present = .absent ∨
        AttendanceStatus.present = .half_day)) ∧
     (AttendanceStatus.present = .present →
       (handleScan 7 30 [] ⟨true, true, .ok, .ok, .ok⟩).trace.pushInvoked = false ∧
       (handleScan 7 30 [] ⟨true, true, .ok, .ok, .ok⟩).trace.emailInvoked = true ∧
       (handleScan 7 30 [] ⟨true, true, .ok, .ok, .ok⟩).trace.smsInvoked = true)) :=
  ⟨by decide, by decide,
   claim7_push_only_for_alert_statuses 7 30 [] ⟨true, true, .ok, .ok, .ok⟩
     .present (by decide) (by decide)⟩

/-- Claim C8: no input produces the half_day status — `getAttendanceStatus`
never returns it for any time of day, and no accepted scan ever inserts a
record whose status is half_day. -/
theorem claim8_half_day_never_produced :
    (∀ t : Nat, getAttendanceStatus t ≠ .half_day) ∧
    (∀ (hours minutes : Nat) (existing : List AttendanceRecord) (env : NotifyEnv),
      (handleScan hours minutes existing env).insertedStatus ≠ some .half_day) := by
  refine ⟨getAttendanceStatus_ne_half_day, fun hours minutes existing env => ?_⟩
  unfold handleScan
  cases hdec : handleScanDecision hours minutes existing with
  | rejectedBothSessions => simp
  | rejectedSameSession => simp
  | accepted s =>
    have hs := handleScanDecision_accepted_eq hdec
    show some s ≠ some AttendanceStatus.half_day
    intro hcontra
    exact getAttendanceStatus_ne_half_day (hours * 60 + minutes)
      (hs.symm.trans (Option.some.inj hcontra))

/-- Claim C9: the birthday check is true exactly when month and day-of-month
of today and of the stored birthday agree, whatever the years; a missing or
empty stored birthday yields false; in particular today 2020-03-15 against
birthday 2027-03-15 is true and today 2020-03-15 against 2020-04-15 is
false. -/
theorem claim9_birthday_month_day_only :
    (∀ (today b : SimpleDate),
      checkIfBirthday today (some b) =
        (today.month == b.month && today.day == b.day)) ∧
    (∀ today : SimpleDate, checkIfBirthday today none = false) ∧
    checkIfBirthday ⟨2020, 3, 15⟩ (some ⟨2027, 3, 15⟩) = true ∧
    checkIfBirthday ⟨2020, 3, 15⟩ (some ⟨2020, 4, 15⟩) = false := by
  refine ⟨fun today b => rfl, fun today => rfl, by decide, by decide⟩

lemma statsAfterRows_fold (l : List Rating) (st0 : QKey → QStat) (k : QKey) :
    ((l.foldl accumRow st0) k).sum = (st0 k).sum + (qvals l k).sum ∧
    ((l.foldl accumRow st0) k).count = (st0 k).count + (qvals l k).length ∧
    ((l.foldl accumRow st0) k).avg = (st0 k).avg := by
  induction l generalizing st0 with
  | nil => simp [qvals]
  | cons r t ih =>
    obtain ⟨ihs, ihc, iha⟩ := ih (accumRow st0 r)
    cases hk : r.get k with
    | none =>
      have ha : accumRow st0 r k = st0 k := by simp [accumRow, hk]
      refine ⟨?_, ?_, ?_⟩ <;>
        simp [List.foldl_cons, qvals, List.filterMap_cons, hk, ihs, ihc, iha, ha]
    | some v =>
      have ha : accumRow st0 r k =
          { st0 k with sum := (st0 k).sum + v, count := (st0 k).count + 1 } := by
        simp [accumRow, hk]
      refine ⟨?_, ?_, ?_⟩ <;>
        simp only [List.foldl_cons, qvals, List.filterMap_cons, hk, ihs, ihc, iha, ha] <;>
        simp [qvals] <;> ring

/-- Claim C10: for every non-empty list of rating rows the `statistics`
memo exists and, per question, its sum / count / average range over exactly
the non-null numeric values of that question (average 0 when no row
answered it), while the overall average is the sum of all numeric values
across the eight questions divided by their total count — weighted by
per-question response counts — and 0 when that total count is 0. -/
theorem claim10_ratings_statistics (ratings : List Rating) (hne : ratings ≠ []) :
    ∃ s, statistics ratings = some s ∧
      (∀ k, (s.byQuestion k).sum = (qvals ratings k).sum ∧
            (s.byQuestion k).count = (qvals ratings k).length ∧
            (s.byQuestion k).avg =
              (if (qvals ratings k).length > 0 then
                 (qvals ratings k).sum / ((qvals ratings k).length : ℚ)
               else 0)) ∧
      s.overallAvg =
        (if (questionKeys.map (fun k => (qvals ratings k).length)).sum > 0 then
           (questionKeys.map (fun k => (qvals ratings k).sum)).sum /
             (((questionKeys.map (fun k => (qvals ratings k).length)).sum : ℚ))
         else 0) ∧
      s.totalResponses = ratings.length := by
  have hlen : ¬(ratings.length = 0) := by
    have := List.length_pos.mpr hne
    omega
  have hpt : ∀ k, (statsAfterRows ratings k).sum = (qvals ratings k).sum ∧
      (statsAfterRows ratings k).count = (qvals ratings k).length ∧
      (statsAfterRows ratings k).avg = 0 := by
    intro k
    have h := statsAfterRows_fold ratings initStats k
    simpa [statsAfterRows, initStats] using h
  have havg : ∀ k, (withAvg (statsAfterRows ratings) k).sum = (qvals ratings k).sum ∧
      (withAvg (statsAfterRows ratings) k).count = (qvals ratings k).length ∧
      (withAvg (statsAfterRows ratings) k).avg =
        (if (qvals ratings k).length > 0 then
           (qvals ratings k).sum / ((qvals ratings k).length : ℚ)
         else 0) := by
    intro k
    obtain ⟨hs, hc, ha⟩ := hpt k
    unfold withAvg
    by_cases hcount : (statsAfterRows ratings k).count > 0
    · rw [if_pos hcount]
      refine ⟨hs, hc, ?_⟩
      rw [hs, hc, if_pos (hc ▸ hcount)]
    · rw [if_neg hcount]
      refine ⟨hs, hc, ?_⟩
      rw [ha, if_neg (by omega)]
  have hsum_map : questionKeys.map (fun k => (withAvg (statsAfterRows ratings) k).sum) =
      questionKeys.map (fun k => (qvals ratings k).sum) :=
    List.map_congr_left (fun k _ => (havg k).1)
  have hcount_map : questionKeys.map (fun k => (withAvg (statsAfterRows ratings) k).count) =
      questionKeys.map (fun k => (qvals ratings k).length) :=
    List.map_congr_left (fun k _ => (havg k).2.1)
  refine ⟨{ byQuestion := withAvg (statsAfterRows ratings)
            overallAvg :=
              if (questionKeys.map (fun k => (withAvg (statsAfterRows ratings) k).count)).sum > 0
              then (questionKeys.map (fun k => (withAvg (statsAfterRows ratings) k).sum)).sum /
                   (((questionKeys.map (fun k =>
                       (withAvg (statsAfterRows ratings) k).count)).sum : ℚ))
              else 0
            totalResponses := ratings.length }, ?_, havg, ?_, rfl⟩
  · unfold statistics
    rw [if_neg hlen]
  · rw [hsum_map, hcount_map]

/-- Witness for C10 on a one-row list with half the questions answered. -/
theorem claim10_ratings_statistics_witness :
    (([sampleRating] : List Rating) ≠ []) ∧
    (∃ s, statistics [sampleRating] = some s ∧
      (∀ k, (s.byQuestion k).sum = (qvals [sampleRating] k).sum ∧
            (s.byQuestion k).count = (qvals [sampleRating] k).length ∧
            (s.byQuestion k).avg =
              (if (qvals [sampleRating] k).length > 0 then
                 (qvals [sampleRating] k).sum / ((qvals [sampleRating] k).length : ℚ)
               else 0)) ∧
      s.overallAvg =
        (if (questionKeys.map (fun k => (qvals [sampleRating] k).length)).sum > 0 then
           (questionKeys.map (fun k => (qvals [sampleRating] k).sum)).sum /
             (((questionKeys.map (fun k => (qvals [sampleRating] k).length)).sum : ℚ))
         else 0) ∧
      s.totalResponses = [sampleRating].length) :=
  ⟨by simp, claim10_ratings_statistics [sampleRating] (by simp)⟩

/-- Counterexample to claim C7 as stated unconditionally: at 08:30 the final
status is late, which should receive a push, yet with a throwing email
collaborator the dispatch phase is aborted before the push block and no push
is sent — the "dispatched if" direction fails. -/
theorem claim7_counterexample :
    handleScanDecision 8 30 [] = .accepted .late ∧
    (handleScan 8 30 [] ⟨true, true, .thrown, .ok, .ok⟩).trace.pushInvoked = false := by
  decide
